import Mathlib

/-!
Verification development for the voice-controlled house security system.

Text is modelled as a list of characters; the Python substring test
`needle in haystack` is modelled by the executable function `hasSub`,
and `str.lower()` by mapping `Char.toLower`.  The command interpreter
`process_nlp`, the controller status handler `app_on_message`, the
device simulator command handler `iot_on_message`, the per-device
state machines, and the autonomous loop of the motion sensor are embedded
as pure functions that return the new state together with the list of
published messages and console/log output.
-/

/-- Predicate (boolean): the first list begins with the second list. -/
def startsWith : List Char → List Char → Bool
  | _, [] => true
  | [], _ :: _ => false
  | a :: as, b :: bs => if a = b then startsWith as bs else false

/-- Predicate (boolean): the second list occurs contiguously inside the
first, as the Python substring test `needle in haystack` on strings. -/
def hasSub : List Char → List Char → Bool
  | [], needle => startsWith [] needle
  | a :: t, needle => startsWith (a :: t) needle || hasSub t needle

/-- Lower-case a character list, as the Python method `str.lower()`. -/
def toLowerStr (s : List Char) : List Char := s.map Char.toLower

/-- Directive produced by the interpreter: target device id (none for a
status query) and requested action, mirroring the dicts built in
`process_nlp`. -/
structure Directive where
  device : Option String
  action : String
deriving DecidableEq

/-- Door-lock rule of `process_nlp` (app.py lines 107-112). -/
def doorPart (text : List Char) : List Directive :=
  if hasSub text "front door".toList || hasSub text "front-door".toList then
    if hasSub text "unlock".toList then [⟨some "door_lock_1", "unlock"⟩]
    else if hasSub text "lock".toList then [⟨some "door_lock_1", "lock"⟩]
    else []
  else []

/-- Alarm rule of `process_nlp` (app.py lines 115-119). -/
def alarmPart (text : List Char) : List Directive :=
  if hasSub text "alarm".toList then
    if hasSub text "disarm".toList then [⟨some "alarm_system", "disarmed"⟩]
    else if hasSub text "arm".toList then [⟨some "alarm_system", "armed"⟩]
    else []
  else []

/-- Motion-sensor rule of `process_nlp` (app.py lines 122-126); both the
turn-on and the turn-off check fire independently. -/
def sensorPart (text : List Char) : List Directive :=
  if hasSub text "living room".toList || hasSub text "living-room".toList then
    (if hasSub text "activate".toList || hasSub text "turn on".toList ||
        hasSub text "enable".toList || hasSub text "on".toList then
       [⟨some "motion_sensor_1", "active"⟩]
     else []) ++
    (if hasSub text "deactivate".toList || hasSub text "turn off".toList ||
        hasSub text "disable".toList || hasSub text "off".toList then
       [⟨some "motion_sensor_1", "inactive"⟩]
     else [])
  else []

/-- Status-query rule of `process_nlp` (app.py lines 129-130). -/
def statusPart (text : List Char) : List Directive :=
  if hasSub text "status".toList || hasSub text "what is the status".toList ||
     hasSub text "report".toList then
    [⟨none, "query_status"⟩]
  else []

/-- The command interpreter `process_nlp` of app.py: lower-case the text,
then evaluate the four keyword rules in order, appending their
directives. -/
def process_nlp (input : List Char) : List Directive :=
  doorPart (toLowerStr input) ++ alarmPart (toLowerStr input) ++
  sensorPart (toLowerStr input) ++ statusPart (toLowerStr input)

/-- Result of one call to the `process_command` method of a device agent: the state
it holds afterwards, the states it published to the status topic (one
entry per `publish_status` call), and the console lines it printed. -/
structure DevResult where
  state : String
  published : List String
  logged : List String
deriving DecidableEq

/-- DoorLock.process_command (iot_device.py lines 41-49): accepts "lock"
and "unlock"; any other command falls through silently, with no print. -/
def doorLockProcess (state : String) (command : Option String) : DevResult :=
  if command = some "lock" ∨ command = some "unlock" then
    let newState := if command = some "lock" then "locked" else "unlocked"
    if state ≠ newState then ⟨newState, [newState], ["Changing state"]⟩
    else ⟨state, [], ["Already in state"]⟩
  else ⟨state, [], []⟩

/-- AlarmSystem.process_command (iot_device.py lines 52-59): accepts
"armed" and "disarmed"; any other command falls through silently. -/
def alarmProcess (state : String) (command : Option String) : DevResult :=
  if command = some "armed" ∨ command = some "disarmed" then
    let newState := if command = some "armed" then "armed" else "disarmed"
    if state ≠ newState then ⟨newState, [newState], ["Changing state"]⟩
    else ⟨state, [], ["Already in state"]⟩
  else ⟨state, [], []⟩

/-- MotionSensor.process_command (iot_device.py lines 71-93): lower-cases
`(command or "")`, accepts verb and adjective forms, and prints a
rejection line for anything else. -/
def motionProcess (state : String) (command : Option String) : DevResult :=
  if toLowerStr (command.getD "").toList = "active".toList ∨
     toLowerStr (command.getD "").toList = "activate".toList ∨
     toLowerStr (command.getD "").toList = "on".toList ∨
     toLowerStr (command.getD "").toList = "enable".toList then
    if state ≠ "active" then ⟨"active", ["active"], ["Changing state"]⟩
    else ⟨state, [], ["Already in state"]⟩
  else if toLowerStr (command.getD "").toList = "inactive".toList ∨
          toLowerStr (command.getD "").toList = "deactivate".toList ∨
          toLowerStr (command.getD "").toList = "off".toList ∨
          toLowerStr (command.getD "").toList = "disable".toList then
    if state ≠ "inactive" then ⟨"inactive", ["inactive"], ["Changing state"]⟩
    else ⟨state, [], ["Already in state"]⟩
  else ⟨state, [], ["Unsupported command"]⟩

/-- Command-to-target-state table of the door lock, read off the accepted
set and the assignment in DoorLock.process_command. -/
def doorTarget (c : String) : Option String :=
  if c = "lock" then some "locked"
  else if c = "unlock" then some "unlocked"
  else none

/-- Command-to-target-state table of the alarm system (identity on the
two accepted states). -/
def alarmTarget (c : String) : Option String :=
  if c = "armed" ∨ c = "disarmed" then some c else none

/-- Command-to-target-state table of the motion sensor, including the
lower-casing its `process_command` applies first. -/
def sensorTarget (c : String) : Option String :=
  if toLowerStr c.toList = "active".toList ∨
     toLowerStr c.toList = "activate".toList ∨
     toLowerStr c.toList = "on".toList ∨
     toLowerStr c.toList = "enable".toList then some "active"
  else if toLowerStr c.toList = "inactive".toList ∨
          toLowerStr c.toList = "deactivate".toList ∨
          toLowerStr c.toList = "off".toList ∨
          toLowerStr c.toList = "disable".toList then some "inactive"
  else none

/-- States of the three simulated device agents, keyed door_lock_1,
alarm_system, motion_sensor_1 as in the `devices` dict. -/
structure Devices where
  door : String
  alarm : String
  sensor : String
deriving DecidableEq

/-- Inbound payload on the command topic, after the decode/parse step:
either non-JSON, or a JSON object whose `device_id` and `command` fields
may each be absent. -/
inductive CmdMsg where
  | malformed
  | json (device_id : Option String) (command : Option String)

/-- Result of the device-side `on_message`: agent states afterwards,
published (device_id, state) status messages, and console output. -/
structure IotResult where
  devs : Devices
  published : List (String × String)
  console : List String
deriving DecidableEq

/-- Device-side on_message (iot_device.py lines 118-136): decode errors
are caught and printed; a known device_id dispatches to that agent, any
other device_id (including a missing field) prints an unknown-device
line. -/
def iot_on_message (devs : Devices) (msg : CmdMsg) : IotResult :=
  match msg with
  | .malformed => ⟨devs, [], ["Received malformed JSON command."]⟩
  | .json did cmd =>
    if did = some "door_lock_1" then
      let r := doorLockProcess devs.door cmd
      ⟨{ devs with door := r.state },
       r.published.map (fun s => ("door_lock_1", s)), r.logged⟩
    else if did = some "alarm_system" then
      let r := alarmProcess devs.alarm cmd
      ⟨{ devs with alarm := r.state },
       r.published.map (fun s => ("alarm_system", s)), r.logged⟩
    else if did = some "motion_sensor_1" then
      let r := motionProcess devs.sensor cmd
      ⟨{ devs with sensor := r.state },
       r.published.map (fun s => ("motion_sensor_1", s)), r.logged⟩
    else ⟨devs, [], ["Received command for unknown device"]⟩

/-- One iteration of MotionSensor.simulate_motion (iot_device.py lines
97-107), after the random sleep: `draw` is the outcome of the test
`random.random() < 0.3`; the result is the sensor state at the end of
the iteration and the states published during it. -/
def simulate_motion_iter (alarmState sensorState : String) (draw : Bool) :
    String × List String :=
  if alarmState = "armed" ∧ sensorState = "inactive" ∧ draw = true then
    ("inactive", ["active", "inactive"])
  else (sensorState, [])

/-- Run of the autonomous loop over a list of iterations, each carrying
the alarm state read at that iteration and the random draw; returns all
states published during the run. -/
def simulate_motion_run (sensorState : String) :
    List (String × Bool) → List String
  | [] => []
  | (a, d) :: rest =>
    (simulate_motion_iter a sensorState d).2 ++
    simulate_motion_run (simulate_motion_iter a sensorState d).1 rest

/-- Entry of the controller `device_states` dict: display name and
current state; the state is whatever the last status message carried,
so it may be absent (Python None). -/
structure Entry where
  name : String
  state : Option String
deriving DecidableEq

/-- Device State Store: the `device_states` dict as an association list
in insertion order. -/
abbrev Store := List (String × Entry)

/-- Initial `device_states` of app.py lines 29-33. -/
def device_states_init : Store :=
  [("door_lock_1", ⟨"Front Door Lock", some "locked"⟩),
   ("alarm_system", ⟨"Alarm System", some "disarmed"⟩),
   ("motion_sensor_1", ⟨"Living Room Sensor", some "inactive"⟩)]

/-- Lookup of a device id in the store, as `device_id in device_states`
followed by `device_states[device_id]`. -/
def storeGet (store : Store) (d : String) : Option Entry :=
  match store with
  | [] => none
  | (k, e) :: t => if k = d then some e else storeGet t d

/-- Assignment `device_states[device_id]["state"] = state` on the model:
replace the state of the entry with that key. -/
def storeSet (store : Store) (d : String) (st : Option String) : Store :=
  match store with
  | [] => []
  | (k, e) :: t =>
    if k = d then (k, { e with state := st }) :: storeSet t d st
    else (k, e) :: storeSet t d st

/-- Inbound payload on the status topic after decoding: non-JSON, or a
JSON object whose `device_id` and `state` fields may each be absent. -/
inductive StatusMsg where
  | malformed
  | json (device_id : Option String) (state : Option String)

/-- Observable output of the controller status handler. -/
inductive AppOut where
  | logEvent (device_name : String) (state : Option String)
  | statusUpdate
  | consoleWarn (s : String)
deriving DecidableEq

/-- Controller-side on_message (app.py lines 48-67): JSON decode errors
are caught and printed; for a known device_id the stored state is
overwritten with whatever the `state` field carried, a state-change log
entry is emitted and a status_update notification is sent; an unknown
or missing device_id does nothing. -/
def app_on_message (store : Store) (msg : StatusMsg) : Store × List AppOut :=
  match msg with
  | .malformed => (store, [.consoleWarn "Received malformed JSON."])
  | .json did st =>
    match did with
    | some d =>
      match storeGet store d with
      | some e => (storeSet store d st, [.logEvent e.name st, .statusUpdate])
      | none => (store, [])
    | none => (store, [])

/-- Observable output of the orchestrator voice-command handler. -/
inductive OrchOut where
  | logEvent (s : String)
  | publish (device : String) (action : String)
deriving DecidableEq

/-- Join a list of strings with a separator, as the Python method `sep.join`. -/
def joinSep (sep : String) : List String → String
  | [] => ""
  | [x] => x
  | x :: y :: t => x ++ sep ++ joinSep sep (y :: t)

/-- Python prints the value None as "None" when interpolated. -/
def showState (st : Option String) : String := st.getD "None"

/-- Status report string composed in handle_voice_command (app.py lines
197-199). -/
def statusReportStr (store : Store) : String :=
  "Current Status Report: " ++
  joinSep "; " (store.map (fun p => p.2.name ++ " is " ++ showState p.2.state))
  ++ "."

/-- handle_voice_command (app.py lines 175-214): ignore absent or empty
text; log receipt; run the interpreter; if it returns nothing log "not
understood" and stop; otherwise log a status report for every
query_status directive, then publish every actionable directive with
its log lines. -/
def handle_voice_command (store : Store) (text : Option String) :
    List OrchOut :=
  match text with
  | none => []
  | some t =>
    if t = "" then []
    else
      let nlp := process_nlp t.toList
      if nlp = [] then
        [.logEvent ("Received voice command: " ++ t),
         .logEvent ("Could not understand command: " ++ t ++ ". No action taken.")]
      else
        [OrchOut.logEvent ("Received voice command: " ++ t)] ++
        nlp.flatMap (fun r =>
          if r.action = "query_status" then
            [.logEvent "Processing status query.", .logEvent (statusReportStr store)]
          else []) ++
        nlp.flatMap (fun r =>
          match r.device with
          | some d =>
            if r.action = "query_status" then []
            else
              [.logEvent ("NLP parsed: Control " ++ d ++ " to state " ++ r.action ++ "."),
               .publish d r.action,
               .logEvent "Published command to MQTT"]
          | none => [])

/-- Characterization: `startsWith` holds exactly when the haystack is the
needle followed by some tail. -/
theorem startsWith_iff (h n : List Char) :
    startsWith h n = true ↔ ∃ t, h = n ++ t := by
  induction n generalizing h with
  | nil => cases h <;> simp [startsWith]
  | cons b bs ih =>
    cases h with
    | nil => simp [startsWith]
    | cons a as =>
      simp only [startsWith]
      by_cases hab : a = b
      · subst hab
        simp [ih]
      · simp [hab]

/-- Characterization: `hasSub` holds exactly when the haystack splits
around the needle. -/
theorem hasSub_iff (h n : List Char) :
    hasSub h n = true ↔ ∃ a b, h = a ++ (n ++ b) := by
  induction h with
  | nil =>
    simp only [hasSub, startsWith_iff]
    constructor
    · rintro ⟨t, ht⟩
      exact ⟨[], t, by simpa using ht⟩
    · rintro ⟨a, b, hab⟩
      rcases List.append_eq_nil.mp hab.symm with ⟨rfl, h2⟩
      exact ⟨b, by simpa using h2⟩
  | cons c t ih =>
    simp only [hasSub, Bool.or_eq_true, startsWith_iff, ih]
    constructor
    · rintro (⟨b, hb⟩ | ⟨a, b, hab⟩)
      · exact ⟨[], b, by simpa using hb⟩
      · exact ⟨c :: a, b, by simp [hab]⟩
    · rintro ⟨a, b, habc⟩
      cases a with
      | nil => exact Or.inl ⟨b, by simpa using habc⟩
      | cons a1 as =>
        simp only [List.cons_append, List.cons.injEq] at habc
        exact Or.inr ⟨as, b, habc.2⟩

/-- Substring containment is transitive through an intermediate string. -/
theorem hasSub_trans {h m n : List Char} (h1 : hasSub h m = true)
    (h2 : hasSub m n = true) : hasSub h n = true := by
  rw [hasSub_iff] at h1 h2 ⊢
  obtain ⟨a, b, rfl⟩ := h1
  obtain ⟨c, d, rfl⟩ := h2
  exact ⟨a ++ c, d ++ b, by simp⟩

/-- Every directive the door-lock rule emits targets door_lock_1 with
action unlock or lock. -/
theorem mem_doorPart {d : Directive} {t : List Char} (h : d ∈ doorPart t) :
    d.device = some "door_lock_1" ∧ (d.action = "unlock" ∨ d.action = "lock") := by
  unfold doorPart at h
  split at h
  · split at h
    · simp at h
      subst h
      exact ⟨rfl, Or.inl rfl⟩
    · split at h
      · simp at h
        subst h
        exact ⟨rfl, Or.inr rfl⟩
      · simp at h
  · simp at h

/-- Every directive the alarm rule emits targets alarm_system with
action disarmed or armed. -/
theorem mem_alarmPart {d : Directive} {t : List Char} (h : d ∈ alarmPart t) :
    d.device = some "alarm_system" ∧ (d.action = "disarmed" ∨ d.action = "armed") := by
  unfold alarmPart at h
  split at h
  · split at h
    · simp at h
      subst h
      exact ⟨rfl, Or.inl rfl⟩
    · split at h
      · simp at h
        subst h
        exact ⟨rfl, Or.inr rfl⟩
      · simp at h
  · simp at h

/-- Every directive the motion-sensor rule emits targets motion_sensor_1
with action active or inactive. -/
theorem mem_sensorPart {d : Directive} {t : List Char} (h : d ∈ sensorPart t) :
    d.device = some "motion_sensor_1" ∧ (d.action = "active" ∨ d.action = "inactive") := by
  unfold sensorPart at h
  split at h
  · rcases List.mem_append.mp h with h | h
    · split at h
      · simp at h
        subst h
        exact ⟨rfl, Or.inl rfl⟩
      · simp at h
    · split at h
      · simp at h
        subst h
        exact ⟨rfl, Or.inr rfl⟩
      · simp at h
  · simp at h

/-- Every directive the status rule emits has no device and action
query_status. -/
theorem mem_statusPart {d : Directive} {t : List Char} (h : d ∈ statusPart t) :
    d.device = none ∧ d.action = "query_status" := by
  unfold statusPart at h
  split at h
  · simp at h
    subst h
    exact ⟨rfl, rfl⟩
  · simp at h

/-- Category index of a directive, following the fixed evaluation order
of the interpreter rules. -/
def dirCat (d : Directive) : Nat :=
  if d.device = some "door_lock_1" then 0
  else if d.device = some "alarm_system" then 1
  else if d.device = some "motion_sensor_1" then 2
  else 3

theorem dirCat_of_doorPart {d : Directive} {t : List Char}
    (h : d ∈ doorPart t) : dirCat d = 0 := by
  simp [dirCat, (mem_doorPart h).1]

theorem dirCat_of_alarmPart {d : Directive} {t : List Char}
    (h : d ∈ alarmPart t) : dirCat d = 1 := by
  simp [dirCat, (mem_alarmPart h).1]

theorem dirCat_of_sensorPart {d : Directive} {t : List Char}
    (h : d ∈ sensorPart t) : dirCat d = 2 := by
  simp [dirCat, (mem_sensorPart h).1]

theorem dirCat_of_statusPart {d : Directive} {t : List Char}
    (h : d ∈ statusPart t) : dirCat d = 3 := by
  simp [dirCat, (mem_statusPart h).1]

theorem doorPart_pairwise (t : List Char) :
    (doorPart t).Pairwise (fun a b => dirCat a ≤ dirCat b) := by
  unfold doorPart
  split
  · split
    · simp
    · split <;> simp
  · simp

theorem alarmPart_pairwise (t : List Char) :
    (alarmPart t).Pairwise (fun a b => dirCat a ≤ dirCat b) := by
  unfold alarmPart
  split
  · split
    · simp
    · split <;> simp
  · simp

theorem sensorPart_pairwise (t : List Char) :
    (sensorPart t).Pairwise (fun a b => dirCat a ≤ dirCat b) := by
  unfold sensorPart
  split
  · split <;> split <;> decide
  · simp

theorem statusPart_pairwise (t : List Char) :
    (statusPart t).Pairwise (fun a b => dirCat a ≤ dirCat b) := by
  unfold statusPart
  split <;> simp

theorem doorPart_filter (t : List Char) :
    (doorPart t).filter (fun d => d.action ≠ "query_status") = doorPart t := by
  unfold doorPart
  split
  · split
    · decide
    · split
      · decide
      · decide
  · decide

theorem alarmPart_filter (t : List Char) :
    (alarmPart t).filter (fun d => d.action ≠ "query_status") = alarmPart t := by
  unfold alarmPart
  split
  · split
    · decide
    · split
      · decide
      · decide
  · decide

theorem sensorPart_filter (t : List Char) :
    (sensorPart t).filter (fun d => d.action ≠ "query_status") = sensorPart t := by
  unfold sensorPart
  split
  · split <;> split <;> decide
  · decide

theorem statusPart_filter (t : List Char) :
    (statusPart t).filter (fun d => d.action ≠ "query_status") = [] := by
  unfold statusPart
  split <;> decide

/-- Claim C1: an utterance mentioning the front door and containing
"unlock" yields the unlock directive for door_lock_1 and never the lock
directive; an utterance mentioning "alarm" and containing "disarm"
yields the disarmed directive for alarm_system and never the armed
directive; and the four example utterances interpret to exactly the
stated single directives. -/
theorem claim1_interpreter_precedence :
    (∀ t : List Char,
      (hasSub (toLowerStr t) "front door".toList = true ∨
       hasSub (toLowerStr t) "front-door".toList = true) →
      hasSub (toLowerStr t) "unlock".toList = true →
      (Directive.mk (some "door_lock_1") "unlock" ∈ process_nlp t ∧
       Directive.mk (some "door_lock_1") "lock" ∉ process_nlp t)) ∧
    (∀ t : List Char,
      hasSub (toLowerStr t) "alarm".toList = true →
      hasSub (toLowerStr t) "disarm".toList = true →
      (Directive.mk (some "alarm_system") "disarmed" ∈ process_nlp t ∧
       Directive.mk (some "alarm_system") "armed" ∉ process_nlp t)) ∧
    process_nlp "unlock the front door".toList = [⟨some "door_lock_1", "unlock"⟩] ∧
    process_nlp "lock the front door".toList = [⟨some "door_lock_1", "lock"⟩] ∧
    process_nlp "disarm the alarm".toList = [⟨some "alarm_system", "disarmed"⟩] ∧
    process_nlp "arm the alarm".toList = [⟨some "alarm_system", "armed"⟩] := by
  refine ⟨?_, ?_, by decide, by decide, by decide, by decide⟩
  · intro t hf hu
    have hdoor : doorPart (toLowerStr t) = [⟨some "door_lock_1", "unlock"⟩] := by
      have hcond : (hasSub (toLowerStr t) "front door".toList ||
          hasSub (toLowerStr t) "front-door".toList) = true := by
        rw [Bool.or_eq_true]
        exact hf
      unfold doorPart
      rw [if_pos hcond, if_pos hu]
    constructor
    · rw [process_nlp, hdoor]
      simp
    · intro hmem
      rw [process_nlp] at hmem
      rcases List.mem_append.mp hmem with hmem | hmem
      · rcases List.mem_append.mp hmem with hmem | hmem
        · rcases List.mem_append.mp hmem with hmem | hmem
          · rw [hdoor] at hmem
            simp at hmem
          · exact absurd (mem_alarmPart hmem).1 (by decide)
        · exact absurd (mem_sensorPart hmem).1 (by decide)
      · exact absurd (mem_statusPart hmem).1 (by decide)
  · intro t ha hdis
    have halarm : alarmPart (toLowerStr t) = [⟨some "alarm_system", "disarmed"⟩] := by
      unfold alarmPart
      rw [if_pos ha, if_pos hdis]
    constructor
    · rw [process_nlp, halarm]
      simp
    · intro hmem
      rw [process_nlp] at hmem
      rcases List.mem_append.mp hmem with hmem | hmem
      · rcases List.mem_append.mp hmem with hmem | hmem
        · rcases List.mem_append.mp hmem with hmem | hmem
          · exact absurd (mem_doorPart hmem).1 (by decide)
          · rw [halarm] at hmem
            simp at hmem
        · exact absurd (mem_sensorPart hmem).1 (by decide)
      · exact absurd (mem_statusPart hmem).1 (by decide)

/-- Witness for claim C1 at the concrete utterances of the spec. -/
theorem claim1_interpreter_precedence_witness :
    (Directive.mk (some "door_lock_1") "unlock" ∈
       process_nlp "unlock the front door".toList ∧
     Directive.mk (some "door_lock_1") "lock" ∉
       process_nlp "unlock the front door".toList) ∧
    (Directive.mk (some "alarm_system") "disarmed" ∈
       process_nlp "disarm the alarm".toList ∧
     Directive.mk (some "alarm_system") "armed" ∉
       process_nlp "disarm the alarm".toList) :=
  ⟨claim1_interpreter_precedence.1 "unlock the front door".toList
     (Or.inl (by decide)) (by decide),
   claim1_interpreter_precedence.2.1 "disarm the alarm".toList
     (by decide) (by decide)⟩

/-- Claim C2: the directives returned by the interpreter always appear
in the fixed category order door lock, alarm, motion sensor, status
query; the non-query directives are exactly the output of the three
device rules, so a status query never suppresses them; and the example
utterance yields exactly the sensor directive followed by the status
query. -/
theorem claim2_order_and_no_suppression :
    (∀ t : List Char,
      List.Pairwise (fun a b => dirCat a ≤ dirCat b) (process_nlp t)) ∧
    (∀ t : List Char,
      (process_nlp t).filter (fun d => d.action ≠ "query_status") =
        doorPart (toLowerStr t) ++ alarmPart (toLowerStr t) ++
        sensorPart (toLowerStr t)) ∧
    process_nlp "turn on living room sensor and report status".toList =
      [⟨some "motion_sensor_1", "active"⟩, ⟨none, "query_status"⟩] := by
  refine ⟨?_, ?_, by decide⟩
  · intro t
    rw [process_nlp]
    rw [List.pairwise_append]
    refine ⟨?_, statusPart_pairwise _, ?_⟩
    · rw [List.pairwise_append]
      refine ⟨?_, sensorPart_pairwise _, ?_⟩
      · rw [List.pairwise_append]
        refine ⟨doorPart_pairwise _, alarmPart_pairwise _, ?_⟩
        · intro a ha b hb
          rw [dirCat_of_doorPart ha, dirCat_of_alarmPart hb]
          decide
      · intro a ha b hb
        rw [dirCat_of_sensorPart hb]
        rcases List.mem_append.mp ha with ha | ha
        · rw [dirCat_of_doorPart ha]
          decide
        · rw [dirCat_of_alarmPart ha]
          decide
    · intro a ha b hb
      rw [dirCat_of_statusPart hb]
      rcases List.mem_append.mp ha with ha | ha
      · rcases List.mem_append.mp ha with ha | ha
        · rw [dirCat_of_doorPart ha]
          decide
        · rw [dirCat_of_alarmPart ha]
          decide
      · rw [dirCat_of_sensorPart ha]
        decide
  · intro t
    rw [process_nlp]
    simp only [List.filter_append, doorPart_filter, alarmPart_filter,
      sensorPart_filter, statusPart_filter, List.append_nil]

theorem doorPart_eq_nil {t : List Char}
    (h1 : hasSub t "front door".toList = false)
    (h2 : hasSub t "front-door".toList = false) : doorPart t = [] := by
  unfold doorPart
  rw [if_neg (by rw [Bool.or_eq_true]; rintro (h | h) <;> simp_all)]

theorem alarmPart_eq_nil {t : List Char}
    (h : hasSub t "alarm".toList = false) : alarmPart t = [] := by
  unfold alarmPart
  rw [if_neg (by rw [h]; simp)]

theorem sensorPart_eq_nil {t : List Char}
    (h1 : hasSub t "living room".toList = false)
    (h2 : hasSub t "living-room".toList = false) : sensorPart t = [] := by
  unfold sensorPart
  rw [if_neg (by rw [Bool.or_eq_true]; rintro (h | h) <;> simp_all)]

theorem statusPart_eq_nil {t : List Char}
    (hs : hasSub t "status".toList = false)
    (hr : hasSub t "report".toList = false) : statusPart t = [] := by
  have hmid : hasSub t "what is the status".toList = false := by
    cases hm : hasSub t "what is the status".toList
    · rfl
    · have := @hasSub_trans t "what is the status".toList "status".toList hm
        (by decide)
      rw [hs] at this
      exact absurd this (by simp)
  unfold statusPart
  rw [if_neg (by rw [Bool.or_eq_true, Bool.or_eq_true]
                 rintro ((h | h) | h) <;> simp_all)]

/-- Claim C8: a text containing none of the recognized keywords
interprets to the empty directive list, and the voice-command handler
then logs receipt plus a not-understood line and publishes nothing. -/
theorem claim8_unrecognized_text :
    ∀ (store : Store) (t : String),
      t ≠ "" →
      hasSub (toLowerStr t.toList) "front door".toList = false →
      hasSub (toLowerStr t.toList) "front-door".toList = false →
      hasSub (toLowerStr t.toList) "alarm".toList = false →
      hasSub (toLowerStr t.toList) "living room".toList = false →
      hasSub (toLowerStr t.toList) "living-room".toList = false →
      hasSub (toLowerStr t.toList) "status".toList = false →
      hasSub (toLowerStr t.toList) "report".toList = false →
      process_nlp t.toList = [] ∧
      handle_voice_command store (some t) =
        [.logEvent ("Received voice command: " ++ t),
         .logEvent ("Could not understand command: " ++ t ++ ". No action taken.")] ∧
      ∀ d a, OrchOut.publish d a ∉ handle_voice_command store (some t) := by
  intro store t ht h1 h2 h3 h4 h5 h6 h7
  have hnlp : process_nlp t.toList = [] := by
    rw [process_nlp, doorPart_eq_nil h1 h2, alarmPart_eq_nil h3,
        sensorPart_eq_nil h4 h5, statusPart_eq_nil h6 h7]
    rfl
  have hnlpd : process_nlp t.data = [] := hnlp
  have hh : handle_voice_command store (some t) =
      [.logEvent ("Received voice command: " ++ t),
       .logEvent ("Could not understand command: " ++ t ++ ". No action taken.")] := by
    simp [handle_voice_command, hnlp, hnlpd, ht]
  refine ⟨hnlp, hh, ?_⟩
  intro d a hmem
  rw [hh] at hmem
  simp at hmem

/-- Witness for claim C8 at a concrete unrecognized utterance. -/
theorem claim8_unrecognized_text_witness :
    process_nlp "hello world".toList = [] ∧
    handle_voice_command device_states_init (some "hello world") =
      [.logEvent ("Received voice command: " ++ "hello world"),
       .logEvent ("Could not understand command: " ++ "hello world" ++ ". No action taken.")] ∧
    ∀ d a, OrchOut.publish d a ∉
      handle_voice_command device_states_init (some "hello world") :=
  claim8_unrecognized_text device_states_init "hello world" (by decide)
    (by decide) (by decide) (by decide) (by decide) (by decide) (by decide)
    (by decide)

/-- Claim C9: the turn-on detection is raw substring containment: the
utterance below contains a living-room phrasing and none of the
multi-character turn-on phrases, yet the interpreter emits the active
directive for the sensor, because "on" occurs inside the word "front". -/
theorem claim9_raw_substring_turn_on :
    hasSub (toLowerStr "lock the front door and the living room".toList)
      "living room".toList = true ∧
    hasSub (toLowerStr "lock the front door and the living room".toList)
      "turn on".toList = false ∧
    hasSub (toLowerStr "lock the front door and the living room".toList)
      "activate".toList = false ∧
    hasSub (toLowerStr "lock the front door and the living room".toList)
      "enable".toList = false ∧
    Directive.mk (some "motion_sensor_1") "active" ∈
      process_nlp "lock the front door and the living room".toList := by
  refine ⟨by decide, by decide, by decide, by decide, by decide⟩

/-- Claim C5: for every device agent and every accepted command, the
agent moves to the mapped state; it publishes exactly one status event
when that state differs from the current one and none when it is the
current one; and the door-lock examples hold concretely. -/
theorem claim5_accepted_command_transition :
    (∀ (s c t : String), doorTarget c = some t →
      (doorLockProcess s (some c)).state = t ∧
      (doorLockProcess s (some c)).published = (if s = t then [] else [t])) ∧
    (∀ (s c t : String), alarmTarget c = some t →
      (alarmProcess s (some c)).state = t ∧
      (alarmProcess s (some c)).published = (if s = t then [] else [t])) ∧
    (∀ (s c t : String), sensorTarget c = some t →
      (motionProcess s (some c)).state = t ∧
      (motionProcess s (some c)).published = (if s = t then [] else [t])) ∧
    doorLockProcess "locked" (some "lock") =
      ⟨"locked", [], ["Already in state"]⟩ ∧
    doorLockProcess "locked" (some "unlock") =
      ⟨"unlocked", ["unlocked"], ["Changing state"]⟩ := by
  refine ⟨?_, ?_, ?_, by decide, by decide⟩
  · intro s c t h
    unfold doorTarget at h
    split at h
    · rename_i hc
      subst hc
      injection h with h
      subst h
      by_cases hs : s = "locked" <;> simp [doorLockProcess, hs]
    · split at h
      · rename_i hc hc2
        subst hc2
        injection h with h
        subst h
        by_cases hs : s = "unlocked" <;> simp [doorLockProcess, hs]
      · cases h
  · intro s c t h
    unfold alarmTarget at h
    split at h
    · rename_i hc
      injection h with h
      subst h
      rcases hc with rfl | rfl
      · by_cases hs : s = "armed" <;> simp [alarmProcess, hs]
      · by_cases hs : s = "disarmed" <;> simp [alarmProcess, hs]
    · cases h
  · intro s c t h
    unfold sensorTarget at h
    unfold motionProcess
    simp only [Option.getD_some]
    split at h
    · rename_i hc
      injection h with h
      subst h
      rw [if_pos hc]
      by_cases hs : s = "active" <;> simp [hs]
    · split at h
      · rename_i hc1 hc2
        injection h with h
        subst h
        rw [if_neg hc1, if_pos hc2]
        by_cases hs : s = "inactive" <;> simp [hs]
      · cases h

/-- Witness for claim C5 at concrete commands for all three agents. -/
theorem claim5_accepted_command_transition_witness :
    ((doorLockProcess "locked" (some "unlock")).state = "unlocked" ∧
     (doorLockProcess "locked" (some "unlock")).published =
       (if "locked" = "unlocked" then [] else ["unlocked"])) ∧
    ((alarmProcess "disarmed" (some "armed")).state = "armed" ∧
     (alarmProcess "disarmed" (some "armed")).published =
       (if "disarmed" = "armed" then [] else ["armed"])) ∧
    ((motionProcess "inactive" (some "ON")).state = "active" ∧
     (motionProcess "inactive" (some "ON")).published =
       (if "inactive" = "active" then [] else ["active"])) :=
  ⟨claim5_accepted_command_transition.1 "locked" "unlock" "unlocked" (by decide),
   claim5_accepted_command_transition.2.1 "disarmed" "armed" "armed" (by decide),
   claim5_accepted_command_transition.2.2.1 "inactive" "ON" "active" (by decide)⟩

/-- Counterexample to claim C7: the door lock receiving the unmapped
command "disarmed" rejects it with no state change and no published
event, but also with no log line at all, contradicting the claim that
the rejection is logged. -/
theorem claim7_counterexample :
    doorLockProcess "locked" (some "disarmed") = ⟨"locked", [], []⟩ ∧
    (doorLockProcess "locked" (some "disarmed")).logged = [] := by
  exact ⟨by decide, by decide⟩

/-- Claim C7 as amended: a command that maps to no valid state for the
device is rejected with no published event and no state change (and the
handler returns, so the process survives); the motion sensor prints a
rejection line, while the door lock and the alarm system reject
silently with no log output. -/
theorem claim7_unmapped_command_rejected :
    (∀ (s c : String), doorTarget c = none →
      doorLockProcess s (some c) = ⟨s, [], []⟩) ∧
    (∀ (s c : String), alarmTarget c = none →
      alarmProcess s (some c) = ⟨s, [], []⟩) ∧
    (∀ (s c : String), sensorTarget c = none →
      motionProcess s (some c) = ⟨s, [], ["Unsupported command"]⟩) := by
  refine ⟨?_, ?_, ?_⟩
  · intro s c h
    unfold doorTarget at h
    split at h
    · cases h
    · split at h
      · cases h
      · rename_i h1 h2
        unfold doorLockProcess
        rw [if_neg]
        rintro (hc | hc)
        · exact h1 (Option.some.inj hc)
        · exact h2 (Option.some.inj hc)
  · intro s c h
    unfold alarmTarget at h
    split at h
    · cases h
    · rename_i h1
      unfold alarmProcess
      rw [if_neg]
      rintro (hc | hc)
      · exact h1 (Or.inl (Option.some.inj hc))
      · exact h1 (Or.inr (Option.some.inj hc))
  · intro s c h
    unfold sensorTarget at h
    split at h
    · cases h
    · split at h
      · cases h
      · rename_i h1 h2
        unfold motionProcess
        simp only [Option.getD_some]
        rw [if_neg h1, if_neg h2]

/-- Witness for the amended claim C7 at concrete rejected commands. -/
theorem claim7_unmapped_command_rejected_witness :
    doorLockProcess "locked" (some "disarmed") = ⟨"locked", [], []⟩ ∧
    alarmProcess "disarmed" (some "lock") = ⟨"disarmed", [], []⟩ ∧
    motionProcess "inactive" (some "lock") =
      ⟨"inactive", [], ["Unsupported command"]⟩ :=
  ⟨claim7_unmapped_command_rejected.1 "locked" "disarmed" (by decide),
   claim7_unmapped_command_rejected.2.1 "disarmed" "lock" (by decide),
   claim7_unmapped_command_rejected.2.2 "inactive" "lock" (by decide)⟩

/-- Claim C4: for every sequence of random draws, a run of the
autonomous motion loop in which the alarm always reads "disarmed"
publishes nothing (the sensor never autonomously becomes active); an
iteration publishes "active" only when the alarm read "armed", the
sensor was "inactive" and the draw succeeded; and such a triggering
iteration publishes exactly active then inactive and ends inactive. -/
theorem claim4_motion_only_when_armed :
    (∀ (sensor : String) (steps : List (String × Bool)),
      (∀ p ∈ steps, p.1 = "disarmed") →
      simulate_motion_run sensor steps = []) ∧
    (∀ (a s : String) (d : Bool),
      "active" ∈ (simulate_motion_iter a s d).2 →
      a = "armed" ∧ s = "inactive" ∧ d = true) ∧
    (∀ (a s : String) (d : Bool), a = "armed" → s = "inactive" → d = true →
      simulate_motion_iter a s d = ("inactive", ["active", "inactive"])) := by
  refine ⟨?_, ?_, ?_⟩
  · intro sensor steps h
    induction steps generalizing sensor with
    | nil => rfl
    | cons p rest ih =>
      obtain ⟨a, d⟩ := p
      have ha : a = "disarmed" := h (a, d) (List.mem_cons_self _ _)
      subst ha
      have hiter : simulate_motion_iter "disarmed" sensor d = (sensor, []) := by
        unfold simulate_motion_iter
        rw [if_neg]
        rintro ⟨hc, -⟩
        exact absurd hc (by decide)
      rw [simulate_motion_run, hiter]
      simp only [List.nil_append]
      exact ih _ (fun q hq => h q (List.mem_cons_of_mem _ hq))
  · intro a s d h
    unfold simulate_motion_iter at h
    split at h
    · rename_i hc
      exact hc
    · simp at h
  · intro a s d h1 h2 h3
    subst h1
    subst h2
    subst h3
    decide

/-- Witness for claim C4: a two-iteration run with the alarm disarmed
publishes nothing, a successful draw while inactive yields only the
armed case, and a triggering iteration publishes both transitions. -/
theorem claim4_motion_only_when_armed_witness :
    simulate_motion_run "inactive" [("disarmed", true), ("disarmed", false)] = [] ∧
    ("armed" = "armed" ∧ "inactive" = "inactive" ∧ true = true) ∧
    simulate_motion_iter "armed" "inactive" true =
      ("inactive", ["active", "inactive"]) :=
  ⟨claim4_motion_only_when_armed.1 "inactive"
     [("disarmed", true), ("disarmed", false)] (by decide),
   claim4_motion_only_when_armed.2.1 "armed" "inactive" true (by decide),
   claim4_motion_only_when_armed.2.2 "armed" "inactive" true rfl rfl rfl⟩

theorem storeGet_storeSet_self (store : Store) (d : String) (st : Option String) :
    storeGet (storeSet store d st) d =
      (storeGet store d).map (fun e => { e with state := st }) := by
  induction store with
  | nil => rfl
  | cons p t ih =>
    obtain ⟨k, e⟩ := p
    by_cases hk : k = d
    · subst hk
      simp [storeGet, storeSet]
    · simp [storeGet, storeSet, hk, ih]

theorem storeSet_storeSet_self (store : Store) (d : String) (st : Option String) :
    storeSet (storeSet store d st) d st = storeSet store d st := by
  induction store with
  | nil => rfl
  | cons p t ih =>
    obtain ⟨k, e⟩ := p
    by_cases hk : k = d
    · subst hk
      simp [storeSet, ih]
    · simp [storeSet, hk, ih]

theorem app_on_message_json (store : Store) (d : String) (st : Option String) :
    app_on_message store (.json (some d) st) =
      match storeGet store d with
      | some e => (storeSet store d st, [AppOut.logEvent e.name st, AppOut.statusUpdate])
      | none => (store, []) := rfl

theorem app_on_message_known (store : Store) {d : String} {e : Entry}
    (st : Option String) (h : storeGet store d = some e) :
    app_on_message store (.json (some d) st) =
      (storeSet store d st, [AppOut.logEvent e.name st, AppOut.statusUpdate]) := by
  rw [app_on_message_json, h]

theorem app_on_message_unknown (store : Store) {d : String}
    (st : Option String) (h : storeGet store d = none) :
    app_on_message store (.json (some d) st) = (store, []) := by
  rw [app_on_message_json, h]

/-- Claim C10: for a known device id the status handler stores whatever
the state field carried, including the absent-field value, and on every
such application it emits the state-change log entry and the
status_update notification, whether or not the value equals the stored
one. -/
theorem claim10_store_any_state_always_notify :
    ∀ (store : Store) (d : String) (e : Entry) (st : Option String),
      storeGet store d = some e →
      app_on_message store (.json (some d) st) =
        (storeSet store d st, [AppOut.logEvent e.name st, AppOut.statusUpdate]) ∧
      storeGet (storeSet store d st) d = some { e with state := st } := by
  intro store d e st h
  constructor
  · exact app_on_message_known store st h
  · rw [storeGet_storeSet_self, h]
    rfl

/-- Witness for claim C10: re-applying the already stored state and
storing the absent-field value both log and notify. -/
theorem claim10_store_any_state_always_notify_witness :
    (app_on_message device_states_init (.json (some "door_lock_1") (some "locked")) =
      (storeSet device_states_init "door_lock_1" (some "locked"),
       [AppOut.logEvent "Front Door Lock" (some "locked"), AppOut.statusUpdate]) ∧
     storeGet (storeSet device_states_init "door_lock_1" (some "locked"))
       "door_lock_1" = some ⟨"Front Door Lock", some "locked"⟩) ∧
    (app_on_message device_states_init (.json (some "door_lock_1") none) =
      (storeSet device_states_init "door_lock_1" none,
       [AppOut.logEvent "Front Door Lock" none, AppOut.statusUpdate]) ∧
     storeGet (storeSet device_states_init "door_lock_1" none)
       "door_lock_1" = some ⟨"Front Door Lock", none⟩) :=
  ⟨claim10_store_any_state_always_notify device_states_init "door_lock_1"
     ⟨"Front Door Lock", some "locked"⟩ (some "locked") (by decide),
   claim10_store_any_state_always_notify device_states_init "door_lock_1"
     ⟨"Front Door Lock", some "locked"⟩ none (by decide)⟩

/-- Counterexample to claim C3: the second application of the same
status event is not a no-op and yields no changed-equals-false result:
the handler again logs a state-change entry and again emits a
status_update notification. -/
theorem claim3_counterexample :
    (app_on_message
      (app_on_message device_states_init
        (.json (some "door_lock_1") (some "locked"))).1
      (.json (some "door_lock_1") (some "locked"))).2 =
    [AppOut.logEvent "Front Door Lock" (some "locked"), AppOut.statusUpdate] := by
  decide

/-- Claim C3 as amended: applying the same status event twice is
idempotent in the stored state, the second application leaving the
store exactly as after the first; but the handler computes no changed
flag and the second application is not a no-op: it again emits the
status_update notification. -/
theorem claim3_idempotent_state :
    ∀ (store : Store) (d : String) (st : Option String),
      (storeGet store d).isSome = true →
      (app_on_message (app_on_message store (.json (some d) st)).1
          (.json (some d) st)).1 =
        (app_on_message store (.json (some d) st)).1 ∧
      AppOut.statusUpdate ∈
        (app_on_message (app_on_message store (.json (some d) st)).1
          (.json (some d) st)).2 := by
  intro store d st h
  cases he : storeGet store d with
  | none => rw [he] at h; cases h
  | some e =>
    have h1 : app_on_message store (.json (some d) st) =
        (storeSet store d st, [AppOut.logEvent e.name st, AppOut.statusUpdate]) :=
      app_on_message_known store st he
    have he2 : storeGet (storeSet store d st) d = some { e with state := st } := by
      rw [storeGet_storeSet_self, he]
      rfl
    have h2 : app_on_message (storeSet store d st) (.json (some d) st) =
        (storeSet (storeSet store d st) d st,
         [AppOut.logEvent ({ e with state := st } : Entry).name st,
          AppOut.statusUpdate]) :=
      app_on_message_known (storeSet store d st) st he2
    rw [h1]
    constructor
    · rw [h2]
      exact storeSet_storeSet_self store d st
    · rw [h2]
      simp

/-- Witness for the amended claim C3 at the initial store. -/
theorem claim3_idempotent_state_witness :
    (app_on_message (app_on_message device_states_init
        (.json (some "door_lock_1") (some "locked"))).1
      (.json (some "door_lock_1") (some "locked"))).1 =
      (app_on_message device_states_init
        (.json (some "door_lock_1") (some "locked"))).1 ∧
    AppOut.statusUpdate ∈
      (app_on_message (app_on_message device_states_init
          (.json (some "door_lock_1") (some "locked"))).1
        (.json (some "door_lock_1") (some "locked"))).2 :=
  claim3_idempotent_state device_states_init "door_lock_1" (some "locked")
    (by decide)

/-- Counterexample to claim C6: a valid JSON status message that is
missing the required state field but names a known device is not
dropped: the handler mutates the store, overwriting the stored state of
door_lock_1 with the absent-field value. -/
theorem claim6_counterexample :
    (app_on_message device_states_init (.json (some "door_lock_1") none)).1 =
      storeSet device_states_init "door_lock_1" none ∧
    (app_on_message device_states_init (.json (some "door_lock_1") none)).1 ≠
      device_states_init := ⟨by decide, by decide⟩

/-- Claim C6 as amended: on both topics non-JSON input is dropped with a
printed warning, no state mutation and no crash; an unknown or missing
device id is dropped without raising an error, with a printed warning
on the device side but silently on the controller side; a command
message missing its command field for the door lock is dropped silently
with no mutation; but on the status topic a valid JSON message missing
the state field for a known device is not dropped: the stored state is
overwritten with the absent-field value. -/
theorem claim6_malformed_and_unknown_dropped :
    (∀ store : Store, app_on_message store .malformed =
        (store, [AppOut.consoleWarn "Received malformed JSON."])) ∧
    (∀ (store : Store) (st : Option String),
        app_on_message store (.json none st) = (store, [])) ∧
    (∀ (store : Store) (d : String) (st : Option String),
        storeGet store d = none →
        app_on_message store (.json (some d) st) = (store, [])) ∧
    (∀ devs : Devices, iot_on_message devs .malformed =
        ⟨devs, [], ["Received malformed JSON command."]⟩) ∧
    (∀ (devs : Devices) (cmd : Option String),
        iot_on_message devs (.json none cmd) =
          ⟨devs, [], ["Received command for unknown device"]⟩) ∧
    (∀ (devs : Devices) (d : String) (cmd : Option String),
        d ≠ "door_lock_1" → d ≠ "alarm_system" → d ≠ "motion_sensor_1" →
        iot_on_message devs (.json (some d) cmd) =
          ⟨devs, [], ["Received command for unknown device"]⟩) ∧
    (∀ devs : Devices,
        iot_on_message devs (.json (some "door_lock_1") none) =
          ⟨devs, [], []⟩) ∧
    (∀ (store : Store) (d : String) (e : Entry),
        storeGet store d = some e →
        (app_on_message store (.json (some d) none)).1 =
          storeSet store d none) := by
  refine ⟨fun store => rfl, fun store st => rfl, ?_, fun devs => rfl, ?_, ?_, ?_, ?_⟩
  · intro store d st h
    exact app_on_message_unknown store st h
  · intro devs cmd
    simp [iot_on_message]
  · intro devs d cmd h1 h2 h3
    simp [iot_on_message, h1, h2, h3]
  · intro devs
    obtain ⟨dr, al, se⟩ := devs
    rfl
  · intro store d e h
    rw [app_on_message_known store none h]

/-- Witness for the amended claim C6 at concrete unknown and malformed
inputs. -/
theorem claim6_malformed_and_unknown_dropped_witness :
    app_on_message device_states_init
        (.json (some "garage_door") (some "open")) =
      (device_states_init, []) ∧
    iot_on_message ⟨"locked", "disarmed", "inactive"⟩
        (.json (some "garage_door") (some "open")) =
      ⟨⟨"locked", "disarmed", "inactive"⟩, [],
       ["Received command for unknown device"]⟩ ∧
    (app_on_message device_states_init (.json (some "door_lock_1") none)).1 =
      storeSet device_states_init "door_lock_1" none :=
  ⟨claim6_malformed_and_unknown_dropped.2.2.1 device_states_init
     "garage_door" (some "open") (by decide),
   claim6_malformed_and_unknown_dropped.2.2.2.2.2.1
     ⟨"locked", "disarmed", "inactive"⟩ "garage_door" (some "open")
     (by decide) (by decide) (by decide),
   claim6_malformed_and_unknown_dropped.2.2.2.2.2.2.2 device_states_init
     "door_lock_1" ⟨"Front Door Lock", some "locked"⟩ (by decide)⟩
